import Mathlib

/-!
Shallow embedding of the CSR-generation server (five express endpoints:
generate-csr, generate-broker-csr, generate-root-ca, sign-client-cert,
sign-broker-cert).  Request fields arriving from a JSON body are modelled
as `Option String` (absent = `none`); JS truthiness of such a field is
`truthy`.  The openssl configuration blocks the handlers assemble by
template interpolation are modelled as lists of their non-blank lines.
-/

set_option linter.unusedVariables false

namespace CsrGen

/-- JS truthiness of an optional string field: undefined and the empty
string are falsy, every other string is truthy. -/
def truthy : Option String → Bool
  | none => false
  | some s => s != ""

/-- Characters removed by `String.prototype.trim` of JS (the common
whitespace and line-terminator characters). -/
def isJsWhitespace (c : Char) : Bool :=
  c = ' ' || c = '\t' || c = '\n' || c = '\r' || c = '\x0b' || c = '\x0c'

/-- Model of `String.prototype.trim`: drop leading and trailing
whitespace characters. -/
def jsTrim (s : String) : String :=
  ⟨((s.data.dropWhile isJsWhitespace).reverse.dropWhile isJsWhitespace).reverse⟩

/-- One element of the subjectAltNames array of a broker request:
a pair of a type tag and a value, both arbitrary strings. -/
structure SanEntry where
  type : String
  value : String
deriving DecidableEq

/-- The filter predicate of the SAN pipeline, source
`subjectAltNames.filter(san => san.value && san.value.trim())`:
keeps an entry when its value is a non-empty string whose trim is
also non-empty. -/
def validSan (s : SanEntry) : Bool :=
  s.value != "" && jsTrim s.value != ""

/-- Rendering of one SAN config line, source template
`${san.type}.${index + 1} = ${san.value.trim()}` where `idx` is already
the 1-based position. -/
def renderSan (s : SanEntry) (idx : Nat) : String :=
  s.type ++ "." ++ Nat.repr idx ++ " = " ++ jsTrim s.value

/-- The rendered SAN lines, source
`subjectAltNames.filter(...).map((san, index) => ...)`: the map index is
the position in the filtered array, shared by all entry types. -/
def sanEntryLines (sans : List SanEntry) : List String :=
  (sans.filter validSan).enum.map (fun p => renderSan p.2 (p.1 + 1))

/-- The joined string the source binds to `sanEntries`
(`.join('\n')`); its JS truthiness guards the alt_names section. -/
def sanEntriesStr (sans : List SanEntry) : String :=
  String.intercalate "\n" (sanEntryLines sans)

/-- The `[ alt_names ]` section lines, source `sanSection`: present
exactly when the joined `sanEntries` string is truthy (non-empty). -/
def altNamesSection (sans : List SanEntry) : List String :=
  if sanEntriesStr sans != "" then "[ alt_names ]" :: sanEntryLines sans else []

/-- The `subjectAltName` clause of the broker configs, source
`${subjectAltNames && subjectAltNames.length > 0 ? 'subjectAltName = @alt_names' : ''}`:
guarded by the raw array being non-empty (a JS array is always truthy,
so the conjunct reduces to the length test). -/
def sanClause (sans : List SanEntry) : List String :=
  if sans.length > 0 then ["subjectAltName = @alt_names"] else []

/-- The `[ v3_req ]` block of the generate-broker-csr openssl config,
followed by the optional alt_names section. -/
def brokerReqExtLines (sans : List SanEntry) : List String :=
  ["keyUsage = critical, digitalSignature, keyEncipherment, keyAgreement",
   "extendedKeyUsage = serverAuth"]
  ++ sanClause sans
  ++ altNamesSection sans

/-- The `[ v3_req ]` block of the generate-csr (client) openssl config:
a fixed pair of lines. -/
def clientReqExtLines : List String :=
  ["keyUsage = critical, digitalSignature, keyAgreement",
   "extendedKeyUsage = clientAuth"]

/-- The `[ v3_ca ]` block of the generate-root-ca openssl config. -/
def v3CaLines : List String :=
  ["subjectKeyIdentifier = hash",
   "authorityKeyIdentifier = keyid:always,issuer",
   "basicConstraints = critical,CA:true",
   "keyUsage = critical, digitalSignature, cRLSign, keyCertSign"]

/-- The request body of sign-client-cert: csr, caKey, caCert and the
optional validityDays (default 365). -/
structure SignClientRequest where
  csr : Option String
  caKey : Option String
  caCert : Option String
  validityDays : Option Nat
deriving DecidableEq

/-- The request body of sign-broker-cert: as the client one plus the
subjectAltNames array (default empty). -/
structure SignBrokerRequest where
  csr : Option String
  caKey : Option String
  caCert : Option String
  validityDays : Option Nat
  subjectAltNames : List SanEntry
deriving DecidableEq

/-- The `[ v3_client ]` signing config written by sign-client-cert: a
fixed template, interpolating nothing from the request (in particular
nothing from the CSR, which openssl `x509 -req -extfile ... -extensions
v3_client` uses as the sole source of extensions). -/
def signClientConfig (r : SignClientRequest) : List String :=
  ["basicConstraints = CA:FALSE",
   "subjectKeyIdentifier = hash",
   "authorityKeyIdentifier = keyid,issuer",
   "keyUsage = critical, digitalSignature, keyAgreement",
   "extendedKeyUsage = clientAuth"]

/-- The `[ v3_broker ]` signing config written by sign-broker-cert: the
fixed profile lines plus the SAN clause and section computed from the
subjectAltNames of the request body (never from the CSR). -/
def signBrokerConfig (r : SignBrokerRequest) : List String :=
  ["basicConstraints = CA:FALSE",
   "subjectKeyIdentifier = hash",
   "authorityKeyIdentifier = keyid,issuer",
   "keyUsage = critical, digitalSignature, keyEncipherment, keyAgreement",
   "extendedKeyUsage = serverAuth"]
  ++ sanClause r.subjectAltNames
  ++ altNamesSection r.subjectAltNames

/-- The request body of generate-csr (client): all identity fields are
optional strings at the JSON level; the handler validates five of them
for truthiness. -/
structure ClientCsrRequest where
  curve : Option String
  commonName : Option String
  serialNumber : Option String
  organization : Option String
  organizationalUnit : Option String
  country : Option String
  state : Option String
  locality : Option String
  email : Option String
deriving DecidableEq

/-- The request body of generate-broker-csr. -/
structure BrokerCsrRequest where
  curve : Option String
  commonName : Option String
  organization : Option String
  organizationalUnit : Option String
  country : Option String
  state : Option String
  locality : Option String
  email : Option String
  subjectAltNames : List SanEntry
deriving DecidableEq

/-- The request body of generate-root-ca; every field has a handler-side
default applied by destructuring. -/
structure RootCaRequest where
  curve : Option String
  commonName : Option String
  organization : Option String
  organizationalUnit : Option String
  country : Option String
  state : Option String
  locality : Option String
  validityDays : Option Nat
  email : Option String
deriving DecidableEq

/-- The effective field values of a generate-root-ca request after the
destructuring defaults of the handler. -/
structure RootCaEffective where
  curve : String
  commonName : String
  organization : String
  country : String
  state : String
  locality : String
  validityDays : Nat
deriving DecidableEq

/-- Destructuring defaults of the generate-root-ca handler, source
`commonName = 'MQTT Root CA', organization = 'MQTT Organization',
country = 'US', state = 'California', locality = 'San Francisco',
validityDays = 3650` (a default fires only when the field is absent,
exactly as JS destructuring treats undefined). -/
def rootCaDefaults (r : RootCaRequest) : RootCaEffective :=
  { curve := r.curve.getD "prime256v1"
    commonName := r.commonName.getD "MQTT Root CA"
    organization := r.organization.getD "MQTT Organization"
    country := r.country.getD "US"
    state := r.state.getD "California"
    locality := r.locality.getD "San Francisco"
    validityDays := r.validityDays.getD 3650 }

/-- An optional DN attribute line of the client config, source pattern
`${field ? ` + "KEY = value" + ` : ''}`: emitted only when the field is
truthy, otherwise a blank line (no attribute). -/
def optAttr (k : String) (v : Option String) : List (String × String) :=
  match v with
  | none => []
  | some s => if s = "" then [] else [(k, s)]

/-- The `[ req_distinguished_name ]` attribute list of the generate-csr
(client) openssl config, in the order the template writes it:
C, ST, L, O unconditionally, then OU when truthy, CN, then serialNumber
and emailAddress when truthy. -/
def clientDn (r : ClientCsrRequest) : List (String × String) :=
  [("C", r.country.getD ""), ("ST", r.state.getD ""),
   ("L", r.locality.getD ""), ("O", r.organization.getD "")]
  ++ optAttr "OU" r.organizationalUnit
  ++ [("CN", r.commonName.getD "")]
  ++ optAttr "serialNumber" r.serialNumber
  ++ optAttr "emailAddress" r.email

/-- Spec-side model of the client Distinguished Name, following the
words of the spec only: the canonical order C, ST, L, O, OU, CN,
serialNumber, emailAddress, keeping exactly the supplied, non-empty
fields. Used to compare the code-side `clientDn` against the spec. -/
def specClientDn (r : ClientCsrRequest) : List (String × String) :=
  ([("C", r.country), ("ST", r.state), ("L", r.locality),
    ("O", r.organization), ("OU", r.organizationalUnit),
    ("CN", r.commonName), ("serialNumber", r.serialNumber),
    ("emailAddress", r.email)]).filterMap
    (fun p => match p.2 with
      | none => none
      | some s => if s = "" then none else some (p.1, s))

/-- The scratch directory of the generate-csr handler, source
`path.join(__dirname, 'temp', Date.now().toString())`: a function of
the server directory and the millisecond timestamp only. -/
def clientTempDir (dirname : String) (now : Nat) : String :=
  dirname ++ "/temp/" ++ Nat.repr now

/-- The scratch directory of the generate-broker-csr handler, source
`path.join(__dirname, 'temp', ` + "broker-" + `${Date.now()})`. -/
def brokerTempDir (dirname : String) (now : Nat) : String :=
  dirname ++ "/temp/broker-" ++ Nat.repr now

/-- The scratch directory of the generate-root-ca handler. -/
def caTempDir (dirname : String) (now : Nat) : String :=
  dirname ++ "/temp/ca-" ++ Nat.repr now

/-- The scratch directory of the sign-client-cert handler. -/
def signClientTempDir (dirname : String) (now : Nat) : String :=
  dirname ++ "/temp/sign-client-" ++ Nat.repr now

/-- The scratch directory of the sign-broker-cert handler. -/
def signBrokerTempDir (dirname : String) (now : Nat) : String :=
  dirname ++ "/temp/sign-broker-" ++ Nat.repr now

/-- The scratch directory a generate-csr request is given: the handler
derives it from the clock alone, the request body plays no part. -/
def clientScratchDir (r : ClientCsrRequest) (dirname : String) (now : Nat) : String :=
  clientTempDir dirname now

/-- The private-key staging path inside the generate-csr scratch
directory, source `path.join(tempDir, 'private-key.pem')`. -/
def clientPrivateKeyPath (r : ClientCsrRequest) (dirname : String) (now : Nat) : String :=
  clientScratchDir r dirname now ++ "/private-key.pem"

/-- The three response shapes an endpoint can produce: the 400 JSON of a
failed validation, the success JSON payload, or the 500 JSON built in the
outer catch from a fixed label and the message of the thrown error. -/
inductive Response (α : Type) where
  | badRequest (msg : String)
  | json (payload : α)
  | serverError (label : String) (message : String)
deriving DecidableEq

/-- Discriminator: is the response the 400 of a failed validation. -/
def Response.isBadRequest : Response α → Bool
  | .badRequest _ => true
  | _ => false

/-- Success payload of generate-csr. -/
structure ClientPayload where
  privateKey : String
  publicKey : String
  csr : String
  csrDetails : String
deriving DecidableEq

/-- Success payload of generate-broker-csr (carries `type: 'broker'`). -/
structure BrokerPayload where
  privateKey : String
  publicKey : String
  csr : String
  csrDetails : String
  type : String
deriving DecidableEq

/-- Success payload of generate-root-ca. -/
structure RootCaPayload where
  caKey : String
  caCert : String
  certDetails : String
deriving DecidableEq

/-- Success payload of sign-client-cert and sign-broker-cert. -/
structure SignedPayload where
  signedCert : String
  certDetails : String
deriving DecidableEq

/-- The empty catch wrapped around the error-path cleanup block, source
`try { ... } catch (e) { }`: whatever the cleanup outcome, the
surrounding control flow continues with `a` (the rethrow of the original
error). -/
def swallow (x : Except String Unit) (a : α) : α :=
  match x with
  | _ => a

/-- The required-fields check of generate-csr, source
`if (!commonName || !organization || !country || !state || !locality)`. -/
def clientValidation (r : ClientCsrRequest) : Bool :=
  truthy r.commonName && truthy r.organization && truthy r.country
    && truthy r.state && truthy r.locality

/-- The required-fields check of sign-client-cert, source
`if (!csr || !caKey || !caCert)`. -/
def signValidation (r : SignClientRequest) : Bool :=
  truthy r.csr && truthy r.caKey && truthy r.caCert

/-- Outcomes of the effectful steps a generate-csr request performs, in
program order: each openssl invocation and file operation either
succeeds (with its produced text where the handler reads one) or throws
with a message.  `successCleanup` covers the four unlink/rmdir calls of
the success path, `errorCleanup` the guarded cleanup block of the inner
catch (whose own failure the source swallows with an empty catch). -/
structure ClientWorld where
  mkdir : Except String Unit
  genKey : Except String Unit
  writeConfig : Except String Unit
  genCsr : Except String Unit
  readPrivateKey : Except String String
  readCsr : Except String String
  pubKey : Except String String
  csrText : Except String String
  successCleanup : Except String Unit
  errorCleanup : Except String Unit

/-- The inner try block of generate-csr: key generation, config write,
CSR generation, reads, public-key extraction, decode, success-path
cleanup, then the success payload; the first failure aborts with its
error. -/
def clientBody (w : ClientWorld) : Except String ClientPayload := do
  let _ ← w.genKey
  let _ ← w.writeConfig
  let _ ← w.genCsr
  let privateKey ← w.readPrivateKey
  let csr ← w.readCsr
  let publicKey ← w.pubKey
  let csrDetails ← w.csrText
  let _ ← w.successCleanup
  pure ⟨privateKey, publicKey, csr, csrDetails⟩

/-- The generate-csr handler: truthiness validation of the five required
fields, scratch-directory creation, then the inner try; a failure of the
inner try runs the best-effort cleanup (outcome discarded) and rethrows,
so the outer catch answers 500 with the original message.  The returned
Bool records whether the error-path cleanup block ran. -/
def generateCsr (r : ClientCsrRequest) (w : ClientWorld) :
    Response ClientPayload × Bool :=
  if !clientValidation r then
    (.badRequest "Missing required fields", false)
  else
    match w.mkdir with
    | .error e => (.serverError "Failed to generate CSR" e, false)
    | .ok _ =>
      match clientBody w with
      | .ok p => (.json p, false)
      | .error e =>
        swallow w.errorCleanup (.serverError "Failed to generate CSR" e, true)

/-- Step outcomes of a generate-broker-csr request, program order as for
the client handler. -/
structure BrokerWorld where
  mkdir : Except String Unit
  genKey : Except String Unit
  writeConfig : Except String Unit
  genCsr : Except String Unit
  readPrivateKey : Except String String
  readCsr : Except String String
  pubKey : Except String String
  csrText : Except String String
  successCleanup : Except String Unit
  errorCleanup : Except String Unit

/-- The inner try block of generate-broker-csr. -/
def brokerBody (w : BrokerWorld) : Except String BrokerPayload := do
  let _ ← w.genKey
  let _ ← w.writeConfig
  let _ ← w.genCsr
  let privateKey ← w.readPrivateKey
  let csr ← w.readCsr
  let publicKey ← w.pubKey
  let csrDetails ← w.csrText
  let _ ← w.successCleanup
  pure ⟨privateKey, publicKey, csr, csrDetails, "broker"⟩

/-- The generate-broker-csr handler: only the Common Name is validated,
with its dedicated 400 message, before any scratch state is touched. -/
def generateBrokerCsr (r : BrokerCsrRequest) (w : BrokerWorld) :
    Response BrokerPayload × Bool :=
  if !(truthy r.commonName) then
    (.badRequest "Common Name (CN) is required for broker certificate", false)
  else
    match w.mkdir with
    | .error e => (.serverError "Failed to generate broker CSR" e, false)
    | .ok _ =>
      match brokerBody w with
      | .ok p => (.json p, false)
      | .error e =>
        swallow w.errorCleanup
          (.serverError "Failed to generate broker CSR" e, true)

/-- Step outcomes of a generate-root-ca request. -/
structure RootCaWorld where
  mkdir : Except String Unit
  genKey : Except String Unit
  writeConfig : Except String Unit
  selfSign : Except String Unit
  readCaKey : Except String String
  readCaCert : Except String String
  certText : Except String String
  successCleanup : Except String Unit
  errorCleanup : Except String Unit

/-- The inner try block of generate-root-ca. -/
def rootCaBody (w : RootCaWorld) : Except String RootCaPayload := do
  let _ ← w.genKey
  let _ ← w.writeConfig
  let _ ← w.selfSign
  let caKey ← w.readCaKey
  let caCert ← w.readCaCert
  let certDetails ← w.certText
  let _ ← w.successCleanup
  pure ⟨caKey, caCert, certDetails⟩

/-- The generate-root-ca handler: the source performs no validation at
all (every subject field has a destructuring default), so the flow goes
straight to the scratch directory and the inner try. -/
def generateRootCa (r : RootCaRequest) (w : RootCaWorld) :
    Response RootCaPayload × Bool :=
  match w.mkdir with
  | .error e => (.serverError "Failed to generate Root CA" e, false)
  | .ok _ =>
    match rootCaBody w with
    | .ok p => (.json p, false)
    | .error e =>
      swallow w.errorCleanup (.serverError "Failed to generate Root CA" e, true)

/-- Step outcomes of a sign-client-cert request, program order: the
three input writes, the config write, the openssl signing call, the
certificate read and decode, then the success-path cleanup. -/
structure SignWorld where
  mkdir : Except String Unit
  writeInputs : Except String Unit
  writeConfig : Except String Unit
  signExec : Except String Unit
  readCert : Except String String
  certText : Except String String
  successCleanup : Except String Unit
  errorCleanup : Except String Unit

/-- The inner try block of sign-client-cert (sign-broker-cert is
structurally identical). -/
def signBody (w : SignWorld) : Except String SignedPayload := do
  let _ ← w.writeInputs
  let _ ← w.writeConfig
  let _ ← w.signExec
  let signedCert ← w.readCert
  let certDetails ← w.certText
  let _ ← w.successCleanup
  pure ⟨signedCert, certDetails⟩

/-- The sign-client-cert handler: csr, caKey and caCert are validated for
truthiness, then the scratch directory and the inner try. -/
def signClientCert (r : SignClientRequest) (w : SignWorld) :
    Response SignedPayload × Bool :=
  if !signValidation r then
    (.badRequest "CSR, CA Key, and CA Certificate are required", false)
  else
    match w.mkdir with
    | .error e => (.serverError "Failed to sign client certificate" e, false)
    | .ok _ =>
      match signBody w with
      | .ok p => (.json p, false)
      | .error e =>
        swallow w.errorCleanup
          (.serverError "Failed to sign client certificate" e, true)

/-- A generate-root-ca request with every field absent. -/
def rqAllNone : RootCaRequest :=
  ⟨none, none, none, none, none, none, none, none, none⟩

/-- A generate-broker-csr request without a Common Name. -/
def rqBrokerNoCn : BrokerCsrRequest :=
  ⟨none, none, none, none, none, none, none, none, []⟩

/-- A valid generate-csr request with only the required fields. -/
def rqClientA : ClientCsrRequest :=
  ⟨none, some "device-001", none, some "Acme", none, some "US", some "CA",
   some "SF", none⟩

/-- A second valid generate-csr request, differing from `rqClientA` in
the Common Name. -/
def rqClientB : ClientCsrRequest :=
  ⟨none, some "device-002", none, some "Acme", none, some "US", some "CA",
   some "SF", none⟩

/-- A step trace of generate-root-ca in which every step succeeds. -/
def okRootCaWorld : RootCaWorld :=
  ⟨.ok (), .ok (), .ok (), .ok (), .ok "ca-key-pem", .ok "ca-cert-pem",
   .ok "ca-cert-text", .ok (), .ok ()⟩

/-- A step trace of generate-broker-csr in which every step succeeds. -/
def okBrokerWorld : BrokerWorld :=
  ⟨.ok (), .ok (), .ok (), .ok (), .ok "key-pem", .ok "csr-pem",
   .ok "pub-pem", .ok "csr-text", .ok (), .ok ()⟩

/-- A step trace of generate-csr in which key generation throws. -/
def keyFailClientWorld : ClientWorld :=
  ⟨.ok (), .error "ecparam failed", .ok (), .ok (), .ok "key-pem",
   .ok "csr-pem", .ok "pub-pem", .ok "csr-text", .ok (),
   .error "unlink failed"⟩

/-- A step trace of sign-client-cert in which the openssl signing call
throws and the error-path cleanup also fails. -/
def signFailWorld : SignWorld :=
  ⟨.ok (), .ok (), .ok (), .error "bad csr signature", .ok "cert-pem",
   .ok "cert-text", .ok (), .error "rmdir failed"⟩

/-- A sign-client-cert request with all three required inputs. -/
def rqSignClient : SignClientRequest :=
  ⟨some "csr-pem", some "ca-key-pem", some "ca-cert-pem", none⟩

/-- A SAN list whose single entry has a whitespace-only value. -/
def allBlankSans : List SanEntry := [⟨"DNS", " "⟩]

/-- The broker SAN list of the concrete scenario of the spec. -/
def sampleSans : List SanEntry :=
  [⟨"DNS", "broker.local"⟩, ⟨"IP", "10.0.0.5"⟩]

lemma swallow_eq (x : Except String Unit) (a : α) : swallow x a = a := by
  cases x <;> rfl

/-- Appending the same suffix to the same head with different middles is
never equal when the middles differ (cancel the suffix, then the head). -/
lemma scratch_prefix_ne (d p q r : String) (h : p.data ≠ q.data) :
    d ++ p ++ r ≠ d ++ q ++ r := by
  intro he
  apply h
  have hd := congrArg String.data he
  simp only [String.data_append] at hd
  exact List.append_cancel_left (List.append_cancel_right hd)

/-- The error-path cleanup outcome never influences the generate-csr
response: the source swallows it with an empty catch. -/
lemma generateCsr_cleanup_irrelevant (r : ClientCsrRequest) (w : ClientWorld)
    (c : Except String Unit) :
    generateCsr r { w with errorCleanup := c } = generateCsr r w := by
  unfold generateCsr
  have h1 : ({ w with errorCleanup := c } : ClientWorld).mkdir = w.mkdir := rfl
  have h2 : clientBody { w with errorCleanup := c } = clientBody w := rfl
  rw [h1, h2]
  simp only [swallow_eq]

/-- The error-path cleanup outcome never influences the sign-client-cert
response. -/
lemma signClientCert_cleanup_irrelevant (r : SignClientRequest) (w : SignWorld)
    (c : Except String Unit) :
    signClientCert r { w with errorCleanup := c } = signClientCert r w := by
  unfold signClientCert
  have h1 : ({ w with errorCleanup := c } : SignWorld).mkdir = w.mkdir := rfl
  have h2 : signBody { w with errorCleanup := c } = signBody w := rfl
  rw [h1, h2]
  simp only [swallow_eq]

/-- Decimal value of a digit-character list; a left inverse of the
digit rendering inside `Nat.repr`, used to prove that rendering
injective. -/
def digitsVal (l : List Char) : Nat :=
  l.foldl (fun a c => 10 * a + (c.toNat - 48)) 0

lemma digitsVal_append_singleton (l : List Char) (c : Char) :
    digitsVal (l ++ [c]) = 10 * digitsVal l + (c.toNat - 48) := by
  simp [digitsVal, List.foldl_append]

lemma digitChar_toNat_sub (d : Nat) (h : d < 10) :
    (Nat.digitChar d).toNat - 48 = d := by
  interval_cases d <;> rfl

lemma toDigitsCore_acc : ∀ (f n : Nat) (ds : List Char),
    Nat.toDigitsCore 10 f n ds = Nat.toDigitsCore 10 f n [] ++ ds := by
  intro f
  induction f with
  | zero => intro n ds; simp [Nat.toDigitsCore]
  | succ f ih =>
    intro n ds
    simp only [Nat.toDigitsCore]
    by_cases h : n / 10 = 0
    · simp [h]
    · simp only [h, if_false]
      rw [ih (n / 10) (Nat.digitChar (n % 10) :: ds),
        ih (n / 10) [Nat.digitChar (n % 10)], List.append_assoc]
      rfl

lemma digitsVal_toDigitsCore : ∀ (f n : Nat), n < f →
    digitsVal (Nat.toDigitsCore 10 f n []) = n := by
  intro f
  induction f with
  | zero => intro n hn; omega
  | succ f ih =>
    intro n hn
    simp only [Nat.toDigitsCore]
    by_cases h : n / 10 = 0
    · have h10 : n < 10 := by omega
      simp only [h, if_true, digitsVal, List.foldl]
      rw [Nat.mod_eq_of_lt h10]
      have := digitChar_toNat_sub n h10
      omega
    · have hnpos : 0 < n := by
        rcases Nat.eq_zero_or_pos n with h0 | h0
        · exact absurd (by simp [h0]) h
        · exact h0
      have hdivlt : n / 10 < f :=
        Nat.lt_of_lt_of_le (Nat.div_lt_self hnpos (by norm_num)) (by omega)
      simp only [h, if_false]
      rw [toDigitsCore_acc, digitsVal_append_singleton, ih (n / 10) hdivlt,
        digitChar_toNat_sub (n % 10) (Nat.mod_lt n (by norm_num))]
      omega

lemma digitsVal_toDigits (n : Nat) : digitsVal (Nat.toDigits 10 n) = n :=
  digitsVal_toDigitsCore (n + 1) n (Nat.lt_succ_self n)

/-- The decimal rendering used for the scratch-directory names never
sends two distinct timestamps to the same string. -/
lemma natRepr_injective : Function.Injective Nat.repr := by
  intro a b h
  have hdata : Nat.toDigits 10 a = Nat.toDigits 10 b := by
    have := congrArg String.data h
    simpa [Nat.repr, List.asString] using this
  have := congrArg digitsVal hdata
  rwa [digitsVal_toDigits, digitsVal_toDigits] at this

/-- Appending to a fixed prefix is injective on strings. -/
lemma string_append_right_inj (p : String) {s t : String}
    (h : p ++ s = p ++ t) : s = t := by
  have := congrArg String.data h
  simp only [String.data_append] at this
  exact String.ext (List.append_cancel_left this)

end CsrGen

section Claims
open CsrGen

/-- C1: for every signing request, the extension configuration handed to
the signing step is exactly the fixed role profile (identical across all
requests of the role for the client case, and depending only on the
subjectAltNames of the request body for the broker case) and never reads
the input CSR; every leaf signing config carries basicConstraints
CA:FALSE and the root CA config carries basicConstraints critical
CA:true. -/
theorem c1_signer_authoritative_extensions
    (r r' : SignClientRequest) (b b' : SignBrokerRequest) :
    signClientConfig r = signClientConfig r'
    ∧ (b.subjectAltNames = b'.subjectAltNames →
        signBrokerConfig b = signBrokerConfig b')
    ∧ "basicConstraints = CA:FALSE" ∈ signClientConfig r
    ∧ "basicConstraints = CA:FALSE" ∈ signBrokerConfig b
    ∧ "basicConstraints = critical,CA:true" ∈ v3CaLines := by
  refine ⟨rfl, ?_, ?_, ?_, ?_⟩
  · intro h
    simp [signBrokerConfig, h]
  · simp [signClientConfig]
  · simp [signBrokerConfig]
  · simp [v3CaLines]

theorem c1_witness :
    signClientConfig ⟨some "CSR-A", some "K", some "C", some 365⟩
      = signClientConfig ⟨some "CSR-B", none, none, none⟩
    ∧ signBrokerConfig ⟨some "CSR-A", none, none, none, [⟨"DNS", "x"⟩]⟩
      = signBrokerConfig ⟨some "CSR-B", some "K", none, none, [⟨"DNS", "x"⟩]⟩ := by
  have h := c1_signer_authoritative_extensions
    ⟨some "CSR-A", some "K", some "C", some 365⟩ ⟨some "CSR-B", none, none, none⟩
    ⟨some "CSR-A", none, none, none, [⟨"DNS", "x"⟩]⟩
    ⟨some "CSR-B", some "K", none, none, [⟨"DNS", "x"⟩]⟩
  exact ⟨h.1, h.2.1 rfl⟩

/-- C2 counterexample: with the SAN list DNS broker.local, IP 10.0.0.5
the first IP entry is rendered as IP.2 (the index is the position in the
filtered list, shared across types), not as IP.1 as the claim requires. -/
theorem c2_counterexample :
    sanEntryLines sampleSans = ["DNS.1 = broker.local", "IP.2 = 10.0.0.5"]
    ∧ "IP.1 = 10.0.0.5" ∉ sanEntryLines sampleSans := by
  exact ⟨by decide, by decide⟩

/-- C2 amended: after dropping invalid entries, the rendered SAN lines
use one shared 1-based index sequence over the whole filtered list (the
entry at position i is rendered with suffix i+1 whatever its type), and
with N valid entries exactly N SAN lines are declared. -/
theorem c2_shared_index_sequence (sans : List SanEntry) :
    (sanEntryLines sans).length = (sans.filter validSan).length
    ∧ ∀ i s, (i, s) ∈ (sans.filter validSan).enum →
        renderSan s (i + 1) ∈ sanEntryLines sans := by
  constructor
  · simp [sanEntryLines]
  · intro i s hmem
    exact List.mem_map_of_mem _ hmem

theorem c2_shared_index_witness :
    (sanEntryLines sampleSans).length = 2
    ∧ renderSan ⟨"IP", "10.0.0.5"⟩ 2 ∈ sanEntryLines sampleSans := by
  have h := c2_shared_index_sequence sampleSans
  exact ⟨by rw [h.1]; decide, h.2 1 ⟨"IP", "10.0.0.5"⟩ (by decide)⟩

/-- C3: evaluation at the failing input, a SAN list whose single entry
has a whitespace-only value.  The generated broker extension block (both
in generate-broker-csr and in the sign-broker-cert signing config)
declares subjectAltName = alt_names although no valid entry exists and
the alt_names section is omitted, contradicting the stated rule that the
SAN clause is omitted entirely when every entry is blank. -/
theorem c3_failing_eval :
    allBlankSans.filter validSan = []
    ∧ "subjectAltName = @alt_names" ∈ brokerReqExtLines allBlankSans
    ∧ "[ alt_names ]" ∉ brokerReqExtLines allBlankSans
    ∧ "subjectAltName = @alt_names"
        ∈ signBrokerConfig ⟨some "CSR", some "K", some "C", none, allBlankSans⟩
    ∧ "[ alt_names ]"
        ∉ signBrokerConfig ⟨some "CSR", some "K", some "C", none, allBlankSans⟩ := by
  refine ⟨by decide, by decide, by decide, by decide, by decide⟩

/-- C4 counterexample: a SAN entry whose type is URI (neither DNS nor
IP) is not dropped: it is rendered verbatim into the SAN list. -/
theorem c4_counterexample :
    sanEntryLines [⟨"URI", "example.com"⟩] = ["URI.1 = example.com"]
    ∧ sanEntryLines [⟨"URI", "example.com"⟩] ≠ [] := by
  exact ⟨by decide, by decide⟩

/-- C4 amended: the SAN filter inspects only the value: every entry
whose trimmed value is non-empty is rendered, its type string passed
through verbatim even when it is not DNS or IP; malformed types are
neither dropped nor rejected by the generator. -/
theorem c4_type_passed_through (s : SanEntry) (h : jsTrim s.value ≠ "") :
    sanEntryLines [s] = [renderSan s 1] := by
  have hv : s.value ≠ "" := by
    intro h0
    exact h (by rw [h0]; rfl)
  have hval : validSan s = true := by
    simp [validSan, hv, h]
  simp [sanEntryLines, List.filter_cons, hval, List.enum, List.enumFrom]

theorem c4_type_passed_through_witness :
    jsTrim "example.com" ≠ ""
    ∧ sanEntryLines [⟨"URI", "example.com"⟩] = [renderSan ⟨"URI", "example.com"⟩ 1] :=
  ⟨by decide, c4_type_passed_through ⟨"URI", "example.com"⟩ (by decide)⟩

/-- C5 counterexample: with every subject field unspecified the defaults
actually applied are MQTT Root CA and MQTT Organization, not Root CA and
Organization as the claim states. -/
theorem c5_counterexample :
    rootCaDefaults rqAllNone
      = ⟨"prime256v1", "MQTT Root CA", "MQTT Organization", "US",
         "California", "San Francisco", 3650⟩
    ∧ (rootCaDefaults rqAllNone).commonName ≠ "Root CA"
    ∧ (rootCaDefaults rqAllNone).organization ≠ "Organization" := by
  refine ⟨rfl, by decide, by decide⟩

/-- C5 amended: for every generate-root-ca request, each unspecified
subject field defaults to Common Name MQTT Root CA, Organization MQTT
Organization, Country US, State California, Locality San Francisco, and
the validity period defaults to 3650 days. -/
theorem c5_root_ca_defaults (r : RootCaRequest) :
    (r.commonName = none → (rootCaDefaults r).commonName = "MQTT Root CA")
    ∧ (r.organization = none →
        (rootCaDefaults r).organization = "MQTT Organization")
    ∧ (r.country = none → (rootCaDefaults r).country = "US")
    ∧ (r.state = none → (rootCaDefaults r).state = "California")
    ∧ (r.locality = none → (rootCaDefaults r).locality = "San Francisco")
    ∧ (r.validityDays = none → (rootCaDefaults r).validityDays = 3650) := by
  refine ⟨?_, ?_, ?_, ?_, ?_, ?_⟩ <;>
    (intro h; simp [rootCaDefaults, h])

theorem c5_root_ca_defaults_witness :
    (rootCaDefaults rqAllNone).commonName = "MQTT Root CA"
    ∧ (rootCaDefaults rqAllNone).validityDays = 3650 :=
  ⟨(c5_root_ca_defaults rqAllNone).1 rfl,
   (c5_root_ca_defaults rqAllNone).2.2.2.2.2 rfl⟩

/-- C10: beyond the profile of the spec, the root CA config carries
subjectKeyIdentifier hash and authorityKeyIdentifier keyid always issuer,
and every leaf signing config (client and broker) carries
subjectKeyIdentifier hash and authorityKeyIdentifier keyid issuer. -/
theorem c10_key_identifier_extensions
    (r : SignClientRequest) (b : SignBrokerRequest) :
    "subjectKeyIdentifier = hash" ∈ v3CaLines
    ∧ "authorityKeyIdentifier = keyid:always,issuer" ∈ v3CaLines
    ∧ "subjectKeyIdentifier = hash" ∈ signClientConfig r
    ∧ "authorityKeyIdentifier = keyid,issuer" ∈ signClientConfig r
    ∧ "subjectKeyIdentifier = hash" ∈ signBrokerConfig b
    ∧ "authorityKeyIdentifier = keyid,issuer" ∈ signBrokerConfig b := by
  refine ⟨?_, ?_, ?_, ?_, ?_, ?_⟩ <;>
    simp [v3CaLines, signClientConfig, signBrokerConfig]

/-- C6 counterexample: generate-root-ca invoked with no Common Name at
all does not fail with a ValidationError: the handler validates nothing,
applies the defaults and (all steps succeeding) returns the full success
payload. -/
theorem c6_counterexample :
    rqAllNone.commonName = none
    ∧ generateRootCa rqAllNone okRootCaWorld
        = (.json ⟨"ca-key-pem", "ca-cert-pem", "ca-cert-text"⟩, false)
    ∧ (generateRootCa rqAllNone okRootCaWorld).1.isBadRequest = false := by
  refine ⟨rfl, rfl, rfl⟩

/-- C6 amended: generate-broker-csr without a truthy Common Name answers
the fixed 400 ValidationError, touching no effectful step (the response
does not depend on any step outcome, so no artifact is produced);
generate-root-ca, by contrast, performs no Common-Name validation at
all: a missing CN is replaced by the default MQTT Root CA and the
operation proceeds. -/
theorem c6_missing_cn_validation
    (r : BrokerCsrRequest) (w w' : BrokerWorld)
    (rc : RootCaRequest) (wc : RootCaWorld) :
    (truthy r.commonName = false →
      generateBrokerCsr r w
        = (.badRequest "Common Name (CN) is required for broker certificate",
           false)
      ∧ generateBrokerCsr r w = generateBrokerCsr r w')
    ∧ (generateRootCa rc wc).1.isBadRequest = false
    ∧ (rc.commonName = none → (rootCaDefaults rc).commonName = "MQTT Root CA") := by
  refine ⟨?_, ?_, ?_⟩
  · intro h
    constructor <;> simp [generateBrokerCsr, h]
  · unfold generateRootCa
    rcases hm : wc.mkdir with e | u
    · simp [hm, Response.isBadRequest]
    · rcases hb : rootCaBody wc with e | p <;>
        simp [hm, hb, swallow_eq, Response.isBadRequest]
  · intro h
    simp [rootCaDefaults, h]

theorem c6_missing_cn_validation_witness :
    generateBrokerCsr rqBrokerNoCn okBrokerWorld
      = (.badRequest "Common Name (CN) is required for broker certificate",
         false)
    ∧ (generateRootCa rqAllNone okRootCaWorld).1.isBadRequest = false := by
  have h := c6_missing_cn_validation rqBrokerNoCn okBrokerWorld okBrokerWorld
    rqAllNone okRootCaWorld
  exact ⟨(h.1 rfl).1, h.2.1⟩

/-- C7: for every valid client CSR request the Distinguished-Name
attribute list the handler writes equals the spec-side canonical list:
exactly the supplied, non-empty fields in the order C, ST, L, O, OU, CN,
serialNumber, emailAddress, the optional ones only when provided. -/
theorem c7_client_dn_canonical (r : ClientCsrRequest)
    (hcn : truthy r.commonName = true) (horg : truthy r.organization = true)
    (hc : truthy r.country = true) (hst : truthy r.state = true)
    (hl : truthy r.locality = true) :
    clientDn r = specClientDn r := by
  obtain ⟨curve, cn, sn, org, ou, c, st, l, em⟩ := r
  cases cn with
  | none => simp [truthy] at hcn
  | some cn =>
  cases org with
  | none => simp [truthy] at horg
  | some org =>
  cases c with
  | none => simp [truthy] at hc
  | some c =>
  cases st with
  | none => simp [truthy] at hst
  | some st =>
  cases l with
  | none => simp [truthy] at hl
  | some l =>
  simp only [truthy, bne_iff_ne, ne_eq, decide_eq_true_eq] at hcn horg hc hst hl
  cases ou <;> cases sn <;> cases em <;>
    simp [clientDn, specClientDn, optAttr, hcn, horg, hc, hst, hl] <;>
    split_ifs <;> simp_all

theorem c7_client_dn_canonical_witness :
    clientDn rqClientA = specClientDn rqClientA
    ∧ truthy rqClientA.commonName = true :=
  ⟨c7_client_dn_canonical rqClientA rfl rfl rfl rfl rfl, rfl⟩

/-- C8: the response of a failing operation is the 500 error carrying
the message of the first failing step unchanged — the error-path cleanup
outcome is swallowed and never alters the response — and every response
is a complete success payload or that single error (shown for the two
handlers with an inner catch cited by the claim, generate-csr and
sign-client-cert). -/
theorem c8_cleanup_never_masks
    (r : ClientCsrRequest) (w : ClientWorld)
    (sr : SignClientRequest) (sw : SignWorld)
    (e : String) (p : ClientPayload) (sp : SignedPayload)
    (c : Except String Unit) :
    generateCsr r { w with errorCleanup := c } = generateCsr r w
    ∧ signClientCert sr { sw with errorCleanup := c } = signClientCert sr sw
    ∧ (clientValidation r = true → w.mkdir = .ok () →
        clientBody w = .error e →
        generateCsr r w = (.serverError "Failed to generate CSR" e, true))
    ∧ (clientValidation r = true → w.mkdir = .ok () →
        clientBody w = .ok p →
        generateCsr r w = (.json p, false))
    ∧ (signValidation sr = true → sw.mkdir = .ok () →
        signBody sw = .error e →
        signClientCert sr sw
          = (.serverError "Failed to sign client certificate" e, true))
    ∧ (signValidation sr = true → sw.mkdir = .ok () →
        signBody sw = .ok sp →
        signClientCert sr sw = (.json sp, false)) := by
  refine ⟨generateCsr_cleanup_irrelevant r w c,
    signClientCert_cleanup_irrelevant sr sw c, ?_, ?_, ?_, ?_⟩
  · intro hv hm hb
    simp [generateCsr, hv, hm, hb, swallow_eq]
  · intro hv hm hb
    simp [generateCsr, hv, hm, hb]
  · intro hv hm hb
    simp [signClientCert, hv, hm, hb, swallow_eq]
  · intro hv hm hb
    simp [signClientCert, hv, hm, hb]

theorem c8_cleanup_never_masks_witness :
    signClientCert rqSignClient signFailWorld
      = (.serverError "Failed to sign client certificate" "bad csr signature",
         true)
    ∧ generateCsr rqClientA { keyFailClientWorld with errorCleanup := .ok () }
      = generateCsr rqClientA keyFailClientWorld
    ∧ generateCsr rqClientA keyFailClientWorld
      = (.serverError "Failed to generate CSR" "ecparam failed", true) := by
  have h := c8_cleanup_never_masks rqClientA keyFailClientWorld
    rqSignClient signFailWorld "bad csr signature"
    ⟨"k", "p", "c", "d"⟩ ⟨"s", "d"⟩ (.ok ())
  have h2 := c8_cleanup_never_masks rqClientA keyFailClientWorld
    rqSignClient signFailWorld "ecparam failed"
    ⟨"k", "p", "c", "d"⟩ ⟨"s", "d"⟩ (.ok ())
  exact ⟨h.2.2.2.2.1 rfl rfl rfl, h.1, h2.2.2.1 rfl rfl rfl⟩

/-- C9 counterexample: two different generate-csr requests whose
handlers read the same Date.now() millisecond value are given the same
scratch directory and the same private-key staging path — the scratch
area is not uniquely named per request. -/
theorem c9_counterexample :
    rqClientA ≠ rqClientB
    ∧ clientScratchDir rqClientA "/srv/app" 1700000000000
        = clientScratchDir rqClientB "/srv/app" 1700000000000
    ∧ clientPrivateKeyPath rqClientA "/srv/app" 1700000000000
        = clientPrivateKeyPath rqClientB "/srv/app" 1700000000000 := by
  exact ⟨by decide, rfl, rfl⟩

/-- C9 amended: the scratch directory is derived from the endpoint and
the Date.now() millisecond value alone, never from the request body, so
two same-endpoint requests observing the same millisecond share their
scratch storage; isolation holds exactly between requests with distinct
timestamps (same endpoint) or distinct endpoints (same timestamp). -/
theorem c9_scratch_naming (r r' : ClientCsrRequest) (d : String) (t t' : Nat) :
    clientScratchDir r d t = clientScratchDir r' d t
    ∧ clientPrivateKeyPath r d t = clientPrivateKeyPath r' d t
    ∧ (t ≠ t' → clientTempDir d t ≠ clientTempDir d t')
    ∧ (t ≠ t' → brokerTempDir d t ≠ brokerTempDir d t')
    ∧ (t ≠ t' → caTempDir d t ≠ caTempDir d t')
    ∧ (t ≠ t' → signClientTempDir d t ≠ signClientTempDir d t')
    ∧ (t ≠ t' → signBrokerTempDir d t ≠ signBrokerTempDir d t')
    ∧ clientTempDir d t ≠ brokerTempDir d t
    ∧ clientTempDir d t ≠ caTempDir d t
    ∧ clientTempDir d t ≠ signClientTempDir d t
    ∧ clientTempDir d t ≠ signBrokerTempDir d t
    ∧ brokerTempDir d t ≠ caTempDir d t
    ∧ brokerTempDir d t ≠ signClientTempDir d t
    ∧ brokerTempDir d t ≠ signBrokerTempDir d t
    ∧ caTempDir d t ≠ signClientTempDir d t
    ∧ caTempDir d t ≠ signBrokerTempDir d t
    ∧ signClientTempDir d t ≠ signBrokerTempDir d t := by
  refine ⟨rfl, rfl, ?_, ?_, ?_, ?_, ?_, ?_, ?_, ?_, ?_, ?_, ?_, ?_, ?_, ?_, ?_⟩
  · intro hne heq
    exact hne (natRepr_injective (string_append_right_inj (d ++ "/temp/") heq))
  · intro hne heq
    exact hne (natRepr_injective
      (string_append_right_inj (d ++ "/temp/broker-") heq))
  · intro hne heq
    exact hne (natRepr_injective (string_append_right_inj (d ++ "/temp/ca-") heq))
  · intro hne heq
    exact hne (natRepr_injective
      (string_append_right_inj (d ++ "/temp/sign-client-") heq))
  · intro hne heq
    exact hne (natRepr_injective
      (string_append_right_inj (d ++ "/temp/sign-broker-") heq))
  · exact scratch_prefix_ne d "/temp/" "/temp/broker-" (Nat.repr t) (by decide)
  · exact scratch_prefix_ne d "/temp/" "/temp/ca-" (Nat.repr t) (by decide)
  · exact scratch_prefix_ne d "/temp/" "/temp/sign-client-" (Nat.repr t)
      (by decide)
  · exact scratch_prefix_ne d "/temp/" "/temp/sign-broker-" (Nat.repr t)
      (by decide)
  · exact scratch_prefix_ne d "/temp/broker-" "/temp/ca-" (Nat.repr t)
      (by decide)
  · exact scratch_prefix_ne d "/temp/broker-" "/temp/sign-client-" (Nat.repr t)
      (by decide)
  · exact scratch_prefix_ne d "/temp/broker-" "/temp/sign-broker-" (Nat.repr t)
      (by decide)
  · exact scratch_prefix_ne d "/temp/ca-" "/temp/sign-client-" (Nat.repr t)
      (by decide)
  · exact scratch_prefix_ne d "/temp/ca-" "/temp/sign-broker-" (Nat.repr t)
      (by decide)
  · exact scratch_prefix_ne d "/temp/sign-client-" "/temp/sign-broker-"
      (Nat.repr t) (by decide)

theorem c9_scratch_naming_witness :
    clientScratchDir rqClientA "/app" 1 = clientScratchDir rqClientB "/app" 1
    ∧ clientTempDir "/app" 1 ≠ clientTempDir "/app" 2 := by
  have h := c9_scratch_naming rqClientA rqClientB "/app" 1 2
  exact ⟨h.1, h.2.2.1 (by decide)⟩

end Claims
